import Mathlib

/-
  Verification development for the PaperFlow request-resolution and
  fulfillment engine (paperflow_tools.py, paperflow_agents.py).

  The Python source is shallowly embedded: text is `List Char`, money is `ℚ`,
  database reads are oracle functions supplied as parameters, and the regular
  expressions of the source are embedded as explicit backtracking matchers with
  Python `re` semantics (leftmost scan, greedy with backtracking, IGNORECASE
  via lowercase comparison, `.` not matching newline).
-/

namespace PaperFlow

/-- Lowercase an entire character list, as Python `str.lower()` on ASCII text. -/
def lowerL (l : List Char) : List Char := l.map Char.toLower

/-- Python whitespace (`\s` of `re`, and the default `str.strip` set) on ASCII text. -/
def isPySpace (c : Char) : Bool :=
  c = ' ' || c = '\t' || c = '\n' || c = '\r' || c = Char.ofNat 11 || c = Char.ofNat 12

/-- ASCII decimal digit, the `\d` class of `re` on ASCII text. -/
def isDigitChar (c : Char) : Bool := c.isDigit

/-- Python `str.strip()`: trim whitespace from both ends. -/
def pyStrip (l : List Char) : List Char :=
  ((l.dropWhile isPySpace).reverse.dropWhile isPySpace).reverse

/-- Does the second list start with the first (exact character equality)? -/
def startsWith : List Char → List Char → Bool
  | [], _ => true
  | _ :: _, [] => false
  | p :: ps, c :: cs => p == c && startsWith ps cs

/-- Python substring containment `needle in haystack`. -/
def containsSeq (needle : List Char) : List Char → Bool
  | [] => needle.isEmpty
  | c :: cs => startsWith needle (c :: cs) || containsSeq needle cs

/-- The apostrophe character, used in two source keywords and test requests. -/
def apos : Char := Char.ofNat 39

/-- The four intents of `OrchestratorAgent.classify_intent`. -/
inductive Intent
  | order_placement
  | quote_request
  | inventory_query
  | general
deriving DecidableEq, Repr

/-- Embeds `order_keywords` of `OrchestratorAgent.classify_intent` (paperflow_agents.py, lines 164-165). -/
def order_keywords : List (List Char) :=
  ["buy".data, "purchase".data, "i".data ++ [apos] ++ "ll take".data,
   "i will take".data, "confirm".data, "proceed".data, "complete order".data]

/-- Embeds `quote_keywords` of `OrchestratorAgent.classify_intent` (paperflow_agents.py, lines 170-173). -/
def quote_keywords : List (List Char) :=
  ["quote".data, "how much".data, "price".data, "cost".data, "estimate".data,
   "pricing".data, "how expensive".data, "would like to request".data,
   "would like to place an order".data, "would like to order".data,
   "i need".data, "we need".data, "request for".data]

/-- Embeds `inventory_keywords` of `OrchestratorAgent.classify_intent` (paperflow_agents.py, lines 178-179). -/
def inventory_keywords : List (List Char) :=
  ["do you have".data, "in stock".data, "available".data, "stock level".data,
   "what items".data, "list".data, "inventory".data, "check stock".data]

/-- Embeds `OrchestratorAgent.classify_intent` (paperflow_agents.py, lines 159-183):
lowercase the request, then test the keyword groups top-down by substring
containment; first group with a hit wins. -/
def classify_intent (request : List Char) : Intent :=
  let r := lowerL request
  if order_keywords.any (fun k => containsSeq k r) then .order_placement
  else if quote_keywords.any (fun k => containsSeq k r) then .quote_request
  else if inventory_keywords.any (fun k => containsSeq k r) then .inventory_query
  else .general

/-- The request text, first scenario of the claim: I, apostrophe, `d like to order 500 envelopes`. -/
def reqOrder500 : List Char := "I".data ++ [apos] ++ "d like to order 500 envelopes".data

/-- The request `How much would 500 envelopes cost?`. -/
def reqHowMuch : List Char := "How much would 500 envelopes cost?".data

/-- Claim C4, counterexample: the classifier does not map
the first scenario request to order placement, contrary to the claim:
none of the explicit purchase keywords (`buy`, `purchase`, i-apostrophe-ll-take,
`i will take`, `confirm`, `proceed`, `complete order`) occurs in it, and the
word `order` alone is not an order keyword. -/
theorem C4_counterexample : classify_intent reqOrder500 ≠ Intent.order_placement := by
  decide

/-- Claim C4, amended: the classifier maps the request reqOrder500 to
`general` (it contains no purchase keyword, and the quote keyword
`would like to order` does not match the contracted form of the request),
while `How much would 500 envelopes cost?` is mapped to `quoteRequest`
via the quote keyword `how much`. -/
theorem C4_amended_thm :
    classify_intent reqOrder500 = Intent.general ∧
    classify_intent reqHowMuch = Intent.quote_request := by
  decide

/-- Discount tier selection as written in `calculate_price_with_discounts`
(paperflow_tools.py, lines 551-566): `>= 1000` gives 25%, `>= 500` gives 20%,
`>= 100` gives 10%, otherwise 0%. Depends on the quantity alone. -/
def discountRate_calc (q : Nat) : ℚ :=
  if q ≥ 1000 then 25/100
  else if q ≥ 500 then 20/100
  else if q ≥ 100 then 10/100
  else 0

/-- Discount tier selection as written inline in `process_multi_item_quote_request`
(paperflow_tools.py, lines 416-423). -/
def discountRate_quote (q : Nat) : ℚ :=
  if q ≥ 1000 then 25/100
  else if q ≥ 500 then 20/100
  else if q ≥ 100 then 10/100
  else 0

/-- Discount tier selection as written inline in `process_multi_item_order`
(paperflow_tools.py, lines 740-747). -/
def discountRate_order (q : Nat) : ℚ :=
  if q ≥ 1000 then 25/100
  else if q ≥ 500 then 20/100
  else if q ≥ 100 then 10/100
  else 0

/-- Embeds `base_price = unit_price * quantity` as computed in
`calculate_price_with_discounts` (line 548) and in the quote and order paths
(lines 425, 749). -/
def basePrice (u : ℚ) (q : Nat) : ℚ := u * q

/-- Embeds the `calculate_price_with_discounts` final price (lines 568-569):
`discount_amount = base_price * discount_rate; final = base_price - discount_amount`. -/
def finalPrice_calc (u : ℚ) (q : Nat) : ℚ :=
  basePrice u q - basePrice u q * discountRate_calc q

/-- Final price of the quote path (paperflow_tools.py, line 426):
`final_price = base_price * (1 - discount_rate)`. -/
def finalPrice_quote (u : ℚ) (q : Nat) : ℚ :=
  basePrice u q * (1 - discountRate_quote q)

/-- Final price of the order path (paperflow_tools.py, line 750):
`final_price = base_price * (1 - discount_rate)`. -/
def finalPrice_order (u : ℚ) (q : Nat) : ℚ :=
  basePrice u q * (1 - discountRate_order q)

/-- Claim C6: the three duplicated discount-tier computations agree; the rate is
monotonically non-decreasing in the quantity; it takes only the values
0, 0.10, 0.20, 0.25; it is 0 on [1,99], 0.10 on [100,499], 0.20 on
[500,999], 0.25 on [1000,inf); and tiers cross exactly at 99/100, 499/500,
999/1000.  The functions take only the quantity, so the rate is independent of
item and date. -/
theorem C6_discount_tiers (q q₁ q₂ : Nat) (hq : 1 ≤ q) (hmono : q₁ ≤ q₂) :
    (discountRate_calc q = discountRate_quote q ∧
     discountRate_calc q = discountRate_order q) ∧
    discountRate_calc q₁ ≤ discountRate_calc q₂ ∧
    (discountRate_calc q = 0 ∨ discountRate_calc q = 10/100 ∨
     discountRate_calc q = 20/100 ∨ discountRate_calc q = 25/100) ∧
    (q ≤ 99 → discountRate_calc q = 0) ∧
    (100 ≤ q → q ≤ 499 → discountRate_calc q = 10/100) ∧
    (500 ≤ q → q ≤ 999 → discountRate_calc q = 20/100) ∧
    (1000 ≤ q → discountRate_calc q = 25/100) ∧
    (discountRate_calc 99 = 0 ∧ discountRate_calc 100 = 10/100 ∧
     discountRate_calc 499 = 10/100 ∧ discountRate_calc 500 = 20/100 ∧
     discountRate_calc 999 = 20/100 ∧ discountRate_calc 1000 = 25/100) := by
  refine ⟨⟨rfl, rfl⟩, ?_, ?_, ?_, ?_, ?_, ?_, by norm_num [discountRate_calc]⟩
  · unfold discountRate_calc
    split_ifs <;> norm_num
    all_goals omega
  · unfold discountRate_calc
    split_ifs <;> norm_num
  · intro h
    unfold discountRate_calc
    split_ifs <;> first | rfl | omega
  · intro h₁ h₂
    unfold discountRate_calc
    split_ifs <;> first | rfl | omega
  · intro h₁ h₂
    unfold discountRate_calc
    split_ifs <;> first | rfl | omega
  · intro h
    unfold discountRate_calc
    split_ifs <;> first | rfl | omega

/-- Claim C6, witness: the theorem applied at quantities 550 and 120 ≤ 700. -/
theorem C6_discount_tiers_witness :
    (discountRate_calc 550 = discountRate_quote 550 ∧
     discountRate_calc 550 = discountRate_order 550) ∧
    discountRate_calc 120 ≤ discountRate_calc 700 ∧
    (discountRate_calc 550 = 0 ∨ discountRate_calc 550 = 10/100 ∨
     discountRate_calc 550 = 20/100 ∨ discountRate_calc 550 = 25/100) ∧
    (550 ≤ 99 → discountRate_calc 550 = 0) ∧
    (100 ≤ 550 → 550 ≤ 499 → discountRate_calc 550 = 10/100) ∧
    (500 ≤ 550 → 550 ≤ 999 → discountRate_calc 550 = 20/100) ∧
    (1000 ≤ 550 → discountRate_calc 550 = 25/100) ∧
    (discountRate_calc 99 = 0 ∧ discountRate_calc 100 = 10/100 ∧
     discountRate_calc 499 = 10/100 ∧ discountRate_calc 500 = 20/100 ∧
     discountRate_calc 999 = 20/100 ∧ discountRate_calc 1000 = 25/100) :=
  C6_discount_tiers 550 120 700 (by norm_num) (by norm_num)

/-- Claim C7: in the standalone price calculation, the quote path, and the
order path, the base price equals `unitPrice * quantity` and the final price
equals `unitPrice * quantity * (1 - discountRate quantity)`. -/
theorem C7_price_invariant (u : ℚ) (q : Nat) (hq : 0 < q) :
    basePrice u q = u * q ∧
    finalPrice_calc u q = u * q * (1 - discountRate_calc q) ∧
    finalPrice_quote u q = u * q * (1 - discountRate_quote q) ∧
    finalPrice_order u q = u * q * (1 - discountRate_order q) := by
  refine ⟨rfl, ?_, ?_, ?_⟩ <;>
    simp only [finalPrice_calc, finalPrice_quote, finalPrice_order, basePrice] <;> ring

/-- Claim C7, witness: the invariant at unit price 1/2 and quantity 500. -/
theorem C7_price_invariant_witness :
    basePrice (1/2) 500 = (1/2 : ℚ) * 500 ∧
    finalPrice_calc (1/2) 500 = (1/2 : ℚ) * 500 * (1 - discountRate_calc 500) ∧
    finalPrice_quote (1/2) 500 = (1/2 : ℚ) * 500 * (1 - discountRate_quote 500) ∧
    finalPrice_order (1/2) 500 = (1/2 : ℚ) * 500 * (1 - discountRate_order 500) :=
  C7_price_invariant (1/2) 500 (by norm_num)

/-- Environment of `fuzzy_match_item_name` (paperflow_tools.py, lines 36-76):
the two catalog reads the function performs.  `snapshot` is the result of
`get_all_inventory(date)` (item names with positive stock as of the date) and
`table` is the result of `SELECT item_name FROM inventory` (the full,
date-independent inventory table).  The store itself lives in
`project_starter.py` outside this repository snapshot, so both reads are
oracles; `Except.error` models a raised exception, which the try/except of
the function converts into returning the requested name. -/
structure FuzzyEnv where
  snapshot : Except Unit (List (List Char))
  table : Except Unit (List (List Char))

/-- The candidate item-name list `available_items` assembled at lines 42-49:
the snapshot when it is non-empty, otherwise the full inventory table; `none`
when a read raised. -/
def availList (env : FuzzyEnv) : Option (List (List Char)) :=
  match env.snapshot with
  | .error _ => none
  | .ok inv =>
    if inv.isEmpty then
      match env.table with
      | .error _ => none
      | .ok t => some t
    else some inv

/-- A model of `difflib.get_close_matches(requested, available, n=1, cutoff=0.6)`
(line 64).  `difflib` is Python standard library, not repository code, so it is
abstracted to any chooser; the only property the claims need is
`closeMatchLaw`: a returned match is one of the candidates, which
`get_close_matches` satisfies by construction. -/
def CloseMatch : Type := List Char → List (List Char) → Option (List Char)

/-- A close-match chooser only returns elements of its candidate list. -/
def closeMatchLaw (cm : CloseMatch) : Prop :=
  ∀ r cands m, cm r cands = some m → m ∈ cands

/-- The trivial chooser that never proposes a match (used to evaluate code paths
that return before reaching `get_close_matches`). -/
def cmNone : CloseMatch := fun _ _ => none

/-- Embeds `fuzzy_match_item_name` (paperflow_tools.py, lines 36-76): resolution order
is direct membership, case-insensitive equality (first hit), close match,
substring containment in either direction (first hit), then fallback to the
requested name; any read failure also falls back to the requested name. -/
def fuzzy_match_item_name (cm : CloseMatch) (env : FuzzyEnv)
    (requested : List Char) : List Char :=
  match availList env with
  | none => requested
  | some avail =>
    if avail.isEmpty then requested
    else if avail.contains requested then requested
    else
      match avail.find? (fun it => lowerL it == lowerL requested) with
      | some it => it
      | none =>
        match cm requested avail with
        | some m => m
        | none =>
          match avail.find? (fun it =>
              containsSeq (lowerL requested) (lowerL it) ||
              containsSeq (lowerL it) (lowerL requested)) with
          | some it => it
          | none => requested

/-- Helper: the result of the resolver is the requested name or a candidate. -/
theorem fuzzy_result_cases (cm : CloseMatch) (env : FuzzyEnv)
    (requested : List Char) (hcm : closeMatchLaw cm) :
    fuzzy_match_item_name cm env requested = requested ∨
    fuzzy_match_item_name cm env requested ∈ (availList env).getD [] := by
  unfold fuzzy_match_item_name
  match havail : availList env with
  | none => exact Or.inl rfl
  | some avail =>
    simp only [Option.getD_some]
    by_cases hemp : avail.isEmpty
    · simp [hemp]
    · simp only [hemp, if_false]
      by_cases hdirect : avail.contains requested
      · rw [if_pos hdirect]; exact Or.inl rfl
      · rw [if_neg hdirect]
        match hci : avail.find? (fun it => lowerL it == lowerL requested) with
        | some it => exact Or.inr (List.mem_of_find?_eq_some hci)
        | none =>
          match hcm' : cm requested avail with
          | some m => exact Or.inr (hcm requested avail m hcm')
          | none =>
            match hsub : avail.find? (fun it =>
                containsSeq (lowerL requested) (lowerL it) ||
                containsSeq (lowerL it) (lowerL requested)) with
            | some it => exact Or.inr (List.mem_of_find?_eq_some hsub)
            | none => exact Or.inl rfl

/-- Environment for the C9 counterexample: the dated snapshot reads as empty
and the inventory table reads as empty, so every input falls back to itself. -/
def envC9 : FuzzyEnv := { snapshot := .ok [], table := .ok [] }

/-- Claim C9, counterexample: with an empty catalog and the empty string as the
requested name, the resolver returns the empty string (a result of length 0),
so the returned name is not always a non-empty string. -/
theorem C9_counterexample :
    (fuzzy_match_item_name cmNone envC9 []).length = 0 := by
  rfl

/-- Claim C9, amended: the resolver falls back to the requested name whenever
the candidate set is unreadable or empty, and its result is non-empty provided
the requested name is non-empty and every catalog name is non-empty (the result
is always the requested name or a catalog name; with an empty requested name
and an empty catalog the result is the empty string). -/
theorem C9_amended_thm (cm : CloseMatch) (env : FuzzyEnv) (requested : List Char)
    (hcm : closeMatchLaw cm) (hreq : requested ≠ [])
    (hcands : ∀ it ∈ (availList env).getD [], it ≠ []) :
    fuzzy_match_item_name cm env requested ≠ [] ∧
    (availList env = none ∨ availList env = some [] →
      fuzzy_match_item_name cm env requested = requested) := by
  constructor
  · rcases fuzzy_result_cases cm env requested hcm with h | h
    · rw [h]; exact hreq
    · exact hcands _ h
  · intro hfall
    unfold fuzzy_match_item_name
    rcases hfall with h | h
    · rw [h]
    · rw [h]; rfl

/-- Claim C9, witness: the amended theorem at a concrete chooser, environment
with one non-empty catalog name, and a non-empty requested name. -/
theorem C9_amended_witness :
    fuzzy_match_item_name cmNone { snapshot := .ok ["A4 paper".data], table := .ok [] }
      "pen".data ≠ [] ∧
    (availList { snapshot := .ok ["A4 paper".data], table := .ok [] } = none ∨
     availList { snapshot := .ok ["A4 paper".data], table := .ok [] } = some [] →
      fuzzy_match_item_name cmNone { snapshot := .ok ["A4 paper".data], table := .ok [] }
        "pen".data = "pen".data) :=
  C9_amended_thm cmNone _ _ (fun _ _ _ h => by simp [cmNone] at h)
    (by decide) (by decide)

/-- Environment for the C10 counterexample: the dated snapshot is empty, but the
full inventory table contains `A4 paper`. -/
def envC10 : FuzzyEnv := { snapshot := .ok [], table := .ok ["A4 paper".data] }

/-- Claim C10, counterexample: with an empty dated snapshot, a request for
`a4 paper` resolves (through the table fallback and the case-insensitive step)
to `A4 paper`, which is neither the requested name nor an element of the
catalog snapshot in effect at the date (that snapshot is empty). -/
theorem C10_counterexample :
    fuzzy_match_item_name cmNone envC10 "a4 paper".data = "A4 paper".data ∧
    "A4 paper".data ≠ "a4 paper".data ∧
    envC10.snapshot = .ok [] := by
  refine ⟨by decide, by decide, rfl⟩

/-- Claim C10, amended: the resolver always returns normally (raised reads are
caught and fall back), and its result is either the requested name or an
element of the candidate list actually used — the dated snapshot when that is
non-empty, otherwise the full date-independent inventory table. -/
theorem C10_amended_thm (cm : CloseMatch) (env : FuzzyEnv) (requested : List Char)
    (hcm : closeMatchLaw cm) :
    fuzzy_match_item_name cm env requested = requested ∨
    fuzzy_match_item_name cm env requested ∈ (availList env).getD [] :=
  fuzzy_result_cases cm env requested hcm

/-- Claim C10, witness: the amended theorem at the concrete environment of the
counterexample. -/
theorem C10_amended_witness :
    fuzzy_match_item_name cmNone envC10 "a4 paper".data = "a4 paper".data ∨
    fuzzy_match_item_name cmNone envC10 "a4 paper".data ∈ (availList envC10).getD [] :=
  C10_amended_thm cmNone envC10 "a4 paper".data (fun _ _ _ h => by simp [cmNone] at h)

/-- Length of the maximal prefix satisfying `p` (greedy munch of a character class). -/
def munchCount (p : Char → Bool) (l : List Char) : Nat := (l.takeWhile p).length

/-- Strip a literal pattern prefix case-insensitively (the IGNORECASE flag of the
source regexes), returning the rest of the input on success. -/
def stripPrefixCI : List Char → List Char → Option (List Char)
  | [], l => some l
  | _ :: _, [] => none
  | p :: ps, c :: cs => if p.toLower == c.toLower then stripPrefixCI ps cs else none

/-- Scanner for the lazy tail `(.+?)(?:\n|$|,)` of both parsing regexes:
accumulate characters until the first newline, comma, or end of input. -/
def descGo (acc : List Char) : List Char → List Char × List Char
  | [] => (acc.reverse, [])
  | c :: cs => if c = '\n' || c = ',' then (acc.reverse, cs) else descGo (c :: acc) cs

/-- Embeds `(.+?)(?:\n|$|,)`: at least one character (the first may not be a newline,
since `.` does not match newline), then the earliest delimiter; a newline or
comma delimiter is consumed, end of input is not.  Returns the captured
description and the input remaining after the match. -/
def matchDesc : List Char → Option (List Char × List Char)
  | [] => none
  | c :: cs => if c = '\n' then none else some (descGo [c] cs)

/-- Backtracking over a greedy `\s+`: try the continuation `k` after `n` down to
1 whitespace characters (Python tries the largest count first). -/
def tryWsK (k : List Char → Option α) (l : List Char) : Nat → Option α
  | 0 => none
  | n + 1 =>
    match k (l.drop (n + 1)) with
    | some r => some r
    | none => tryWsK k l n

/-- Embeds `(?:of\s+)?(.+?)(?:\n|$|,)`: the optional group is greedy, so `of` followed
by whitespace is tried first (longest whitespace first); if no continuation
succeeds the group matches empty and the description starts at `of` itself. -/
def matchOfDesc (l : List Char) : Option (List Char × List Char) :=
  match stripPrefixCI "of".data l with
  | some rest =>
    match tryWsK matchDesc rest (munchCount isPySpace rest) with
    | some r => some r
    | none => matchDesc l
  | none => matchDesc l

/-- The unit-noun alternation `(?:sheets?|units?|pieces?)` in Python order:
each branch greedy on its optional `s`. -/
def nounAlts : List (List Char) :=
  ["sheets".data, "sheet".data, "units".data, "unit".data, "pieces".data, "piece".data]

/-- Try the unit nouns in order; after a noun the pattern requires `\s+`
(greedy, with backtracking because the description may itself start with
whitespace) followed by the optional-`of` description tail. -/
def tryNouns : List (List Char) → List Char → Option (List Char × List Char)
  | [], _ => none
  | n :: ns, l =>
    match stripPrefixCI n l with
    | some l2 =>
      match tryWsK matchOfDesc l2 (munchCount isPySpace l2) with
      | some r => some r
      | none => tryNouns ns l
    | none => tryNouns ns l

/-- The shared core `(\d+)\s+(?:sheets?|units?|pieces?)\s+(?:of\s+)?(.+?)(?:\n|$|,)`
of both source patterns (paperflow_tools.py, lines 88-89).  `\d+` and the first
`\s+` are maximal-munch without backtracking: shortening either would leave the
next mandatory element facing a character of the same class, which cannot
match.  Returns ((digit run, description), rest after match). -/
def matchCore (l : List Char) : Option ((List Char × List Char) × List Char) :=
  let ds := l.takeWhile isDigitChar
  if ds.isEmpty then none
  else
    let l1 := l.drop ds.length
    let w := munchCount isPySpace l1
    if w = 0 then none
    else
      match tryNouns nounAlts (l1.drop w) with
      | some (desc, rest) => some ((ds, desc), rest)
      | none => none

/-- The bulleted pattern `[-•*]\s*(\d+)...` (line 88): a bullet character, any
whitespace, then the shared core. -/
def matchP1 (l : List Char) : Option ((List Char × List Char) × List Char) :=
  match l with
  | [] => none
  | c :: cs =>
    if c = '-' || c = Char.ofNat 0x2022 || c = '*' then
      matchCore (cs.dropWhile isPySpace)
    else none

/-- Embeds `re.findall`, fuelled for structural recursion: scan left to right; on a
match, collect the groups and resume after the match (non-overlapping);
otherwise advance one character.  Every match of the patterns above consumes at
least one character; the guard makes a (never occurring) non-consuming match
advance one character instead, which is also Python behaviour for empty
matches.  Each step shortens the input, so `input.length` fuel is exact. -/
def findAllFuel (m : List Char → Option (α × List Char)) : Nat → List Char → List α
  | 0, _ => []
  | _ + 1, [] => []
  | fuel + 1, c :: cs =>
    match m (c :: cs) with
    | some (g, rest) =>
      if rest.length ≤ cs.length then g :: findAllFuel m fuel rest
      else g :: findAllFuel m fuel cs
    | none => findAllFuel m fuel cs

/-- Embeds `re.findall` over a whole text. -/
def findAll (m : List Char → Option (α × List Char)) (l : List Char) : List α :=
  findAllFuel m l.length l

/-- Embeds `int(...)` on a digit run. -/
def digitsToNat (ds : List Char) : Nat :=
  ds.foldl (fun n c => 10 * n + (c.toNat - '0'.toNat)) 0

/-- Substitution with Python `re.sub` semantics, fuelled for structural
recursion: scan left to right; on a match of `n ≥ 1` characters emit the
replacement and resume after the match; otherwise keep the character and
advance.  Each step shortens the input, so `input.length` fuel is exact. -/
def subFuel (m : List Char → Option Nat) (repl : List Char) : Nat → List Char → List Char
  | 0, l => l
  | _ + 1, [] => []
  | fuel + 1, c :: cs =>
    match m (c :: cs) with
    | some (n + 1) => repl ++ subFuel m repl fuel ((c :: cs).drop (n + 1))
    | _ => c :: subFuel m repl fuel cs

/-- Embeds `re.sub(pattern, repl, text)` over a whole text. -/
def subAllRepl (m : List Char → Option Nat) (repl : List Char) (l : List Char) : List Char :=
  subFuel m repl l.length l

/-- Matcher for `\s*\([^)]*\)` (line 97): optional whitespace, an opening
parenthesis, everything up to the first closing parenthesis. -/
def matchParen (l : List Char) : Option Nat :=
  let w := munchCount isPySpace l
  match l.drop w with
  | '(' :: rest =>
    let inner := rest.takeWhile (· != ')')
    if inner.length < rest.length then some (w + 1 + inner.length + 1) else none
  | _ => none

/-- Matcher for `\s+(white|black|colored|assorted\s+colors)` with IGNORECASE
(line 98): mandatory whitespace then the alternation in source order. -/
def matchColor (l : List Char) : Option Nat :=
  let w := munchCount isPySpace l
  if w = 0 then none
  else
    let l1 := l.drop w
    match stripPrefixCI "white".data l1 with
    | some _ => some (w + 5)
    | none =>
      match stripPrefixCI "black".data l1 with
      | some _ => some (w + 5)
      | none =>
        match stripPrefixCI "colored".data l1 with
        | some _ => some (w + 7)
        | none =>
          match stripPrefixCI "assorted".data l1 with
          | some r =>
            let w2 := munchCount isPySpace r
            if w2 = 0 then none
            else
              match stripPrefixCI "colors".data (r.drop w2) with
              | some _ => some (w + 8 + w2 + 6)
              | none => none
          | none => none

/-- Python str.rstrip with a dot argument: drop all trailing dots. -/
def rstripDots (l : List Char) : List Char := (l.reverse.dropWhile (· == '.')).reverse

/-- The description clean-up of `parse_multi_item_request` (lines 95-102):
strip, strip trailing dots, remove parenthesised qualifiers, remove trailing
colour words, strip again. -/
def cleanDesc (d : List Char) : List Char :=
  pyStrip (subAllRepl matchColor [] (subAllRepl matchParen [] (rstripDots (pyStrip d))))

/-- One parsed line item: a quantity and a raw item description. -/
structure LineItem where
  quantity : Nat
  item_name : List Char
deriving DecidableEq, Repr

/-- Embeds `parse_multi_item_request` (paperflow_tools.py, lines 79-105): run `findall`
for the bulleted pattern, then for the bare pattern, over the whole text, and
emit one item per match in that order. -/
def parse_multi_item_request (text : List Char) : List LineItem :=
  let m1 := findAll matchP1 text
  let m2 := findAll matchCore text
  (m1 ++ m2).map fun p => { quantity := digitsToNat p.1, item_name := cleanDesc p.2 }

/-- Availability note attached to a quoted line
(paperflow_tools.py, lines 429-436): immediate delivery when stock covers the
quantity, otherwise a backorder note with the split. -/
inductive Avail
  | immediate
  | backorder (availNow : Int) (backordered : Int)
deriving DecidableEq, Repr

/-- One priced line of a multi-item quote (paperflow_tools.py, lines 438-441). -/
structure QuoteLine where
  name : List Char
  quantity : Nat
  unitPrice : ℚ
  finalPrice : ℚ
  avail : Avail
deriving DecidableEq, Repr

/-- The structured content of a multi-item quote: the priced lines, the
unavailable requested names, and the running total (lines 386-388, 427). -/
structure QuoteResult where
  lines : List QuoteLine
  unavailable : List (List Char)
  total : ℚ
deriving DecidableEq, Repr

/-- The store reads used by the quote path: the catalog reads of the resolver, plus
`get_stock_level` (`none` models an empty result frame) and the
`unit_price` lookup from the inventory table (`none` models an empty frame).
These live in `project_starter.py` / the database, outside this repository
snapshot, so they are oracles. -/
structure StoreEnv where
  fuzzy : FuzzyEnv
  stock : List Char → Option Int
  price : List Char → Option ℚ

/-- One iteration of the item loop of `process_multi_item_quote_request`
(paperflow_tools.py, lines 390-441): resolve the name, reject when the stock
frame is empty or stock is non-positive or the price frame is empty, otherwise
price the full requested quantity at the tiered discount and attach the
availability note. -/
def quoteStep (cm : CloseMatch) (env : StoreEnv) (it : LineItem) :
    Except (List Char) QuoteLine :=
  let matched := fuzzy_match_item_name cm env.fuzzy it.item_name
  match env.stock matched with
  | none => .error it.item_name
  | some s =>
    if s ≤ 0 then .error it.item_name
    else
      match env.price matched with
      | none => .error it.item_name
      | some u =>
        let av := if s ≥ (it.quantity : Int) then Avail.immediate
                  else Avail.backorder s ((it.quantity : Int) - s)
        .ok { name := matched, quantity := it.quantity, unitPrice := u,
              finalPrice := finalPrice_quote u it.quantity, avail := av }

/-- Embeds `process_multi_item_quote_request` (paperflow_tools.py, lines 360-460):
parse the request (`none` models the could-not-parse reply), then accumulate
priced lines, unavailable names, and the total over the items in order. -/
def process_multi_item_quote_request (cm : CloseMatch) (env : StoreEnv)
    (text : List Char) : Option QuoteResult :=
  let items := parse_multi_item_request text
  if items.isEmpty then none
  else
    some (items.foldl (fun acc it =>
      match quoteStep cm env it with
      | .ok ql => { acc with lines := acc.lines ++ [ql], total := acc.total + ql.finalPrice }
      | .error nm => { acc with unavailable := acc.unavailable ++ [nm] })
      { lines := [], unavailable := [], total := 0 })

/-- The C1 scenario request text. -/
def reqC1 : List Char := "- 200 sheets of A4 paper\n- 50 units of cardstock".data

/-- The C1 scenario catalog: A4 paper, stock 500 at unit price 0.10;
cardstock, stock 10 at unit price 1.00. -/
def envC1 : StoreEnv :=
  { fuzzy := { snapshot := .ok ["A4 paper".data, "cardstock".data],
               table := .ok ["A4 paper".data, "cardstock".data] },
    stock := fun n =>
      if n == "A4 paper".data then some 500
      else if n == "cardstock".data then some 10
      else none,
    price := fun n =>
      if n == "A4 paper".data then some (10/100)
      else if n == "cardstock".data then some 1
      else none }

/-- Claim C1: evaluating the engine on the scenario shows the divergence.  The
bulleted pattern and the bare pattern of `parse_multi_item_request` both match
each bulleted line, so the request parses to four line items, and the quote
carries two A4-paper lines at $18.00 each, two cardstock lines at $50.00 each,
and a total of $136.00 — not one line each and $68.00 as the claim states.
The per-line arithmetic (10% tier at 200, $18.00; 0% tier at 50, $50.00)
matches the claim; only the duplication diverges. -/
theorem C1_code_eval :
    process_multi_item_quote_request cmNone envC1 reqC1 =
      some { lines :=
              [{ name := "A4 paper".data, quantity := 200, unitPrice := 10/100,
                 finalPrice := 18, avail := .immediate },
               { name := "cardstock".data, quantity := 50, unitPrice := 1,
                 finalPrice := 50, avail := .backorder 10 40 },
               { name := "A4 paper".data, quantity := 200, unitPrice := 10/100,
                 finalPrice := 18, avail := .immediate },
               { name := "cardstock".data, quantity := 50, unitPrice := 1,
                 finalPrice := 50, avail := .backorder 10 40 }],
             unavailable := [],
             total := 136 } := by
  have h : process_multi_item_quote_request cmNone envC1 reqC1 =
      some { lines :=
              [{ name := "A4 paper".data, quantity := 200, unitPrice := 10/100,
                 finalPrice := finalPrice_quote (10/100) 200, avail := .immediate },
               { name := "cardstock".data, quantity := 50, unitPrice := 1,
                 finalPrice := finalPrice_quote 1 50, avail := .backorder 10 40 },
               { name := "A4 paper".data, quantity := 200, unitPrice := 10/100,
                 finalPrice := finalPrice_quote (10/100) 200, avail := .immediate },
               { name := "cardstock".data, quantity := 50, unitPrice := 1,
                 finalPrice := finalPrice_quote 1 50, avail := .backorder 10 40 }],
             unavailable := [],
             total := 0 + finalPrice_quote (10/100) 200 + finalPrice_quote 1 50 +
               finalPrice_quote (10/100) 200 + finalPrice_quote 1 50 } := rfl
  rw [h]
  norm_num [finalPrice_quote, basePrice, discountRate_quote]

/-- Helper: an element of `dropWhile p l` is an element of `l`. -/
theorem mem_of_mem_dropWhile (p : Char → Bool) (l : List Char) (a : Char)
    (h : a ∈ l.dropWhile p) : a ∈ l := by
  induction l with
  | nil => simpa using h
  | cons c cs ih =>
    by_cases hc : p c
    · rw [List.dropWhile_cons, if_pos hc] at h
      exact List.mem_cons_of_mem _ (ih h)
    · rwa [List.dropWhile_cons, if_neg hc] at h

/-- Helper: the shared pattern core cannot match digit-free text
(`\d+` needs a digit at the start of the match). -/
theorem matchCore_none (l : List Char) (h : ∀ c ∈ l, isDigitChar c = false) :
    matchCore l = none := by
  unfold matchCore
  have hds : l.takeWhile isDigitChar = [] := by
    cases l with
    | nil => rfl
    | cons c cs => simp [List.takeWhile_cons, h c (List.mem_cons_self c cs)]
  simp [hds]

/-- Helper: the bulleted pattern cannot match digit-free text. -/
theorem matchP1_none (l : List Char) (h : ∀ c ∈ l, isDigitChar c = false) :
    matchP1 l = none := by
  cases l with
  | nil => rfl
  | cons c cs =>
    simp only [matchP1]
    split
    · exact matchCore_none _ fun a ha =>
        h a (List.mem_cons_of_mem _ (mem_of_mem_dropWhile _ _ _ ha))
    · rfl

/-- Helper: `findall` over text on which the matcher never fires is empty. -/
theorem findAllFuel_nil_of_none {α : Type} (m : List Char → Option (α × List Char))
    (P : Char → Bool) (hm : ∀ l, (∀ c ∈ l, P c = false) → m l = none) :
    ∀ fuel l, (∀ c ∈ l, P c = false) → findAllFuel m fuel l = [] := by
  intro fuel
  induction fuel with
  | zero => intro l _; rfl
  | succ f ih =>
    intro l h
    cases l with
    | nil => rfl
    | cons c cs =>
      have hnone := hm (c :: cs) h
      simp only [findAllFuel, hnone]
      exact ih cs fun a ha => h a (List.mem_cons_of_mem _ ha)

/-- The C5 counterexample request: a bulleted line whose quantity is `0`. -/
def reqC5 : List Char := "- 0 sheets of x".data

/-- Claim C5, counterexample: the quantity `0` parses as a (non-positive)
integer, and the parser emits items for it instead of dropping the line — one
per pattern, both with quantity 0.  So not every emitted quantity is strictly
positive. -/
theorem C5_counterexample :
    (parse_multi_item_request reqC5).map LineItem.quantity = [0, 0] := by
  decide

/-- Claim C5, amended: every emitted quantity is the value of a run of decimal
digits (hence a non-negative integer), and a line whose quantity cannot be
parsed at all yields no item — in particular digit-free text parses to the
empty sequence; but a quantity consisting of the digit `0` is emitted as 0
rather than silently dropped. -/
theorem C5_amended_thm (text : List Char) (h : ∀ c ∈ text, isDigitChar c = false) :
    parse_multi_item_request text = [] := by
  unfold parse_multi_item_request findAll
  rw [findAllFuel_nil_of_none matchP1 isDigitChar matchP1_none _ _ h,
      findAllFuel_nil_of_none matchCore isDigitChar matchCore_none _ _ h]
  rfl

/-- Claim C5, witness: the amended theorem on a digit-free request. -/
theorem C5_amended_witness :
    parse_multi_item_request "- many sheets of paper".data = [] :=
  C5_amended_thm _ (by decide)

/-- Per-item decision of the order-execution loop of `process_multi_item_order`
(paperflow_tools.py, lines 713-727): reject when the stock frame is empty,
stock is non-positive, or stock is strictly below the requested quantity;
otherwise proceed to sell the full quantity.  There is no partial outcome. -/
inductive OrderDecision
  | notFound
  | outOfStock
  | rejectInsufficient (availNow : Int)
  | proceed (q : Nat)
deriving DecidableEq, Repr

/-- The threshold logic of `process_multi_item_order` (lines 713-727), as a
function of the stock read (`none` models an empty result frame) and the
requested quantity. -/
def orderDecision (stockRes : Option Int) (q : Nat) : OrderDecision :=
  match stockRes with
  | none => .notFound
  | some s =>
    if s ≤ 0 then .outOfStock
    else if s < (q : Int) then .rejectInsufficient s
    else .proceed q

/-- Outcomes of `validate_order_feasibility` (paperflow_tools.py, lines 802-848):
not found, out of stock, partial fulfilment offer, or fulfillable. -/
inductive FeasibilityResult
  | notFound
  | outOfStock
  | partFill (availNow : Int) (shortage : Int)
  | fulfilled (q : Nat)
deriving DecidableEq, Repr

/-- The threshold logic of `validate_order_feasibility` (lines 817-845). -/
def validate_order_feasibility (stockRes : Option Int) (q : Nat) : FeasibilityResult :=
  match stockRes with
  | none => .notFound
  | some s =>
    if s ≤ 0 then .outOfStock
    else if s < (q : Int) then .partFill s ((q : Int) - s)
    else .fulfilled q

/-- Availability decision of the quote path (paperflow_tools.py, lines 400 and
429-436): unavailable when the frame is empty or stock non-positive, immediate
when stock covers the quantity, otherwise a backorder split (the line is still
priced at the full quantity). -/
inductive QuoteAvailDecision
  | unavailable
  | immediate (q : Nat)
  | backorder (availNow : Int) (backordered : Int)
deriving DecidableEq, Repr

/-- The threshold logic of the quote path, as a function of the stock read. -/
def quoteAvailDecision (stockRes : Option Int) (q : Nat) : QuoteAvailDecision :=
  match stockRes with
  | none => .unavailable
  | some s =>
    if s ≤ 0 then .unavailable
    else if s ≥ (q : Int) then .immediate q
    else .backorder s ((q : Int) - s)

/-- Claim C2, counterexample: at stock 10 and requested quantity 50, the
validation path offers partial fulfilment `PartiallyFulfilled(10, 40)` and the
quote path prices the line with a backorder split, but the order-execution
path rejects the line outright — so quoting and ordering do not apply
identical threshold logic and quoted availability diverges from order-time
behaviour. -/
theorem C2_counterexample :
    quoteAvailDecision (some 10) 50 = .backorder 10 40 ∧
    validate_order_feasibility (some 10) 50 = .partFill 10 40 ∧
    orderDecision (some 10) 50 = .rejectInsufficient 10 := by
  decide

/-- Claim C2, amended: the three paths agree on the not-found, out-of-stock and
stock-covers-quantity cases, and the partial split satisfies
`s + (q − s) = q`; but on `0 < s < q` the validation path yields
`PartiallyFulfilled(s, q−s)` and the quote path a priced backorder, while the
order-execution path rejects the line item, so no partial sale is transacted. -/
theorem C2_amended_thm (s : Int) (q : Nat) (hq : 0 < q) :
    (orderDecision none q = .notFound ∧
     validate_order_feasibility none q = .notFound ∧
     quoteAvailDecision none q = .unavailable) ∧
    (s ≤ 0 →
      orderDecision (some s) q = .outOfStock ∧
      validate_order_feasibility (some s) q = .outOfStock ∧
      quoteAvailDecision (some s) q = .unavailable) ∧
    (0 < s → s < (q : Int) →
      validate_order_feasibility (some s) q = .partFill s ((q : Int) - s) ∧
      s + ((q : Int) - s) = (q : Int) ∧
      quoteAvailDecision (some s) q = .backorder s ((q : Int) - s) ∧
      orderDecision (some s) q = .rejectInsufficient s) ∧
    ((q : Int) ≤ s →
      orderDecision (some s) q = .proceed q ∧
      validate_order_feasibility (some s) q = .fulfilled q ∧
      quoteAvailDecision (some s) q = .immediate q) := by
  refine ⟨⟨rfl, rfl, rfl⟩, ?_, ?_, ?_⟩
  · intro hs
    simp [orderDecision, validate_order_feasibility, quoteAvailDecision, hs]
  · intro hs hlt
    have h1 : ¬ s ≤ 0 := by omega
    have h3 : ¬ s ≥ (q : Int) := by omega
    refine ⟨?_, by omega, ?_, ?_⟩ <;>
      simp [orderDecision, validate_order_feasibility, quoteAvailDecision, h1, hlt, h3]
  · intro hge
    have h1 : ¬ s ≤ 0 := by omega
    have h2 : ¬ s < (q : Int) := by omega
    have h3 : s ≥ (q : Int) := hge
    refine ⟨?_, ?_, ?_⟩ <;>
      simp [orderDecision, validate_order_feasibility, quoteAvailDecision, h1, h2, h3]

/-- Claim C2, witness: the amended theorem at stock 10, quantity 50. -/
theorem C2_amended_witness :
    (orderDecision none 50 = .notFound ∧
     validate_order_feasibility none 50 = .notFound ∧
     quoteAvailDecision none 50 = .unavailable) ∧
    ((10 : Int) ≤ 0 →
      orderDecision (some 10) 50 = .outOfStock ∧
      validate_order_feasibility (some 10) 50 = .outOfStock ∧
      quoteAvailDecision (some 10) 50 = .unavailable) ∧
    ((0 : Int) < 10 → (10 : Int) < (50 : Nat) →
      validate_order_feasibility (some 10) 50 = .partFill 10 (((50 : Nat) : Int) - 10) ∧
      (10 : Int) + (((50 : Nat) : Int) - 10) = ((50 : Nat) : Int) ∧
      quoteAvailDecision (some 10) 50 = .backorder 10 (((50 : Nat) : Int) - 10) ∧
      orderDecision (some 10) 50 = .rejectInsufficient 10) ∧
    (((50 : Nat) : Int) ≤ 10 →
      orderDecision (some 10) 50 = .proceed 50 ∧
      validate_order_feasibility (some 10) 50 = .fulfilled 50 ∧
      quoteAvailDecision (some 10) 50 = .immediate 50) :=
  C2_amended_thm 10 50 (by norm_num)

/-- The store interface used by `process_multi_item_order`, threading an
abstract store state `σ`: the catalog reads of the resolver, stock and price reads,
the `create_transaction` write (which can fail, and otherwise returns a
transaction id together with the updated store, since sales change stock), and
`get_cash_balance`.  These functions live in `project_starter.py`, outside this
repository snapshot, so they are oracles. -/
structure OrderStore (σ : Type) where
  fuzzyOf : σ → FuzzyEnv
  stock : σ → List Char → Option Int
  price : σ → List Char → Option ℚ
  createTxn : σ → List Char → Nat → ℚ → Except Unit (Nat × σ)
  cash : σ → ℚ

/-- Reasons the order loop rejects a line item (lines 715-769). -/
inductive RejectReason
  | notFound
  | outOfStock
  | insufficient (availNow : Int)
  | pricingError
  | txnFailed
deriving DecidableEq, Repr

/-- One completed sale of the order loop (lines 753-766). -/
structure Sale where
  name : List Char
  quantity : Nat
  finalPrice : ℚ
  txnId : Nat
deriving DecidableEq, Repr

/-- One iteration of the item loop of `process_multi_item_order`
(paperflow_tools.py, lines 705-769): resolve, apply the threshold checks of
lines 713-727, look up the price, compute the discounted final price, and
attempt the sales transaction; a failed transaction rejects only this item. -/
def orderStep {σ : Type} (cm : CloseMatch) (M : OrderStore σ) (st : σ)
    (it : LineItem) : (Sale ⊕ (List Char × RejectReason)) × σ :=
  let matched := fuzzy_match_item_name cm (M.fuzzyOf st) it.item_name
  match M.stock st matched with
  | none => (.inr (it.item_name, .notFound), st)
  | some s =>
    if s ≤ 0 then (.inr (it.item_name, .outOfStock), st)
    else if s < (it.quantity : Int) then (.inr (it.item_name, .insufficient s), st)
    else
      match M.price st matched with
      | none => (.inr (it.item_name, .pricingError), st)
      | some u =>
        match M.createTxn st matched it.quantity (finalPrice_order u it.quantity) with
        | .error _ => (.inr (it.item_name, .txnFailed), st)
        | .ok (tid, st2) =>
          (.inl { name := matched, quantity := it.quantity,
                  finalPrice := finalPrice_order u it.quantity, txnId := tid }, st2)

/-- The sequential loop over all parsed items (lines 705-769): every item is
processed, rejections keep the store unchanged and never stop the loop, and
completed sales thread the updated store into later items. -/
def orderLoop {σ : Type} (cm : CloseMatch) (M : OrderStore σ) :
    List LineItem → σ → List Sale × List (List Char × RejectReason) × ℚ × σ
  | [], st => ([], [], 0, st)
  | it :: its, st =>
    match orderStep cm M st it with
    | (.inl sale, st2) =>
      let r := orderLoop cm M its st2
      (sale :: r.1, r.2.1, sale.finalPrice + r.2.2.1, r.2.2.2)
    | (.inr rej, st2) =>
      let r := orderLoop cm M its st2
      (r.1, rej :: r.2.1, r.2.2.1, r.2.2.2)

/-- The overall result of `process_multi_item_order` (lines 694-795):
`unparseable` is the could-not-parse reply (line 699); `failure` is the
we-cannot-fulfill reply built only from the rejections (line 784), with no
completed-sales content; `success` carries the completed sales, the rejected
items, the total, and the post-sale cash balance (lines 786-793). -/
inductive OrderResult
  | unparseable
  | failure (rejected : List (List Char × RejectReason))
  | success (completed : List Sale) (rejected : List (List Char × RejectReason))
      (total : ℚ) (cashAfter : ℚ)
deriving Repr

/-- Embeds `process_multi_item_order` (paperflow_tools.py, lines 680-798). -/
def process_multi_item_order {σ : Type} (cm : CloseMatch) (M : OrderStore σ)
    (st : σ) (text : List Char) : OrderResult × σ :=
  let items := parse_multi_item_request text
  if items.isEmpty then (.unparseable, st)
  else
    let r := orderLoop cm M items st
    if r.1.isEmpty then (.failure r.2.1, r.2.2.2)
    else (.success r.1 r.2.1 r.2.2.1 (M.cash r.2.2.2), r.2.2.2)

/-- Helper: the order loop emits exactly one outcome (sale or rejection) per
item — rejections never abort the remaining items. -/
theorem orderLoop_length {σ : Type} (cm : CloseMatch) (M : OrderStore σ) :
    ∀ (items : List LineItem) (st : σ),
      (orderLoop cm M items st).1.length + (orderLoop cm M items st).2.1.length
        = items.length := by
  intro items
  induction items with
  | nil => intro st; rfl
  | cons it its ih =>
    intro st
    simp only [orderLoop]
    match horderStep : orderStep cm M st it with
    | (.inl sale, st2) =>
      have := ih st2
      simp only [List.length_cons]
      omega
    | (.inr rej, st2) =>
      have := ih st2
      simp only [List.length_cons]
      omega

/-- Claim C8: when a multi-item order parses but zero line items succeed, the
overall result is the `failure` reply, whose constructor carries only the
rejections (no completed set and no zero-value total), and every parsed line
item was still processed: the rejection list has exactly one entry per parsed
item, so the failure of one item never aborts the remaining items. -/
theorem C8_zero_success (σ : Type) (cm : CloseMatch) (M : OrderStore σ) (st : σ)
    (text : List Char)
    (hne : parse_multi_item_request text ≠ [])
    (hz : (orderLoop cm M (parse_multi_item_request text) st).1 = []) :
    (process_multi_item_order cm M st text).1 =
      .failure (orderLoop cm M (parse_multi_item_request text) st).2.1 ∧
    (orderLoop cm M (parse_multi_item_request text) st).2.1.length =
      (parse_multi_item_request text).length := by
  constructor
  · unfold process_multi_item_order
    rw [if_neg (by simpa [List.isEmpty_iff] using hne)]
    simp only []
    rw [if_pos (by simpa [List.isEmpty_iff] using hz)]
  · have := orderLoop_length cm M (parse_multi_item_request text) st
    rw [hz] at this
    simpa using this

/-- The C8 witness store: every stock read reports the item as missing, so
every line item is rejected. -/
def storeC8 : OrderStore Unit :=
  { fuzzyOf := fun _ => { snapshot := .ok [], table := .ok [] },
    stock := fun _ _ => none,
    price := fun _ _ => none,
    createTxn := fun _ _ _ _ => .error (),
    cash := fun _ => 0 }

/-- The C8 witness request. -/
def reqC8 : List Char := "- 5 sheets of x".data

/-- Claim C8, witness: the theorem at the concrete store in which both parsed
items are rejected as not found. -/
theorem C8_zero_success_witness :
    (process_multi_item_order cmNone storeC8 () reqC8).1 =
      .failure (orderLoop cmNone storeC8 (parse_multi_item_request reqC8) ()).2.1 ∧
    (orderLoop cmNone storeC8 (parse_multi_item_request reqC8) ()).2.1.length =
      (parse_multi_item_request reqC8).length :=
  C8_zero_success Unit cmNone storeC8 () reqC8 (by decide) (by decide)

/-- The `[\d,\.]` character class of the cash-figure patterns. -/
def isMoneyChar (c : Char) : Bool := c.isDigit || c = ',' || c = '.'

/-- The `[\d\.]` character class of the percentage patterns. -/
def isNumDotChar (c : Char) : Bool := c.isDigit || c = '.'

/-- The `[:\s]` character class of the profit-margin and internal-cost patterns. -/
def isColonSpace (c : Char) : Bool := c = ':' || isPySpace c

/-- A literal (case-insensitive) pattern prefix followed by a tail matcher that
reports how many further characters it consumes. -/
def matchLitThen (lit : List Char) (k : List Char → Option Nat)
    (l : List Char) : Option Nat :=
  match stripPrefixCI lit l with
  | some r =>
    match k r with
    | some n => some (lit.length + n)
    | none => none
  | none => none

/-- Tail `class+`: one or more characters of a class, greedy.  Greedy munching
is exact here because in every use the following pattern element (a literal or
the end of the pattern) cannot match a character of the class. -/
def tailClassPlus (p : Char → Bool) (r : List Char) : Option Nat :=
  let n := munchCount p r
  if n = 0 then none else some n

/-- Tail `class+` followed by a required literal character (e.g. `\d+\)`). -/
def tailClassPlusChar (p : Char → Bool) (c : Char) (r : List Char) : Option Nat :=
  let n := munchCount p r
  if n = 0 then none
  else
    match r.drop n with
    | d :: _ => if d == c then some (n + 1) else none
    | [] => none

/-- Tail of `profit margin[:\s]+[\d\.]+%?`: the two greedy pluses are over
disjoint classes, then an optional percent sign. -/
def tailProfit (r : List Char) : Option Nat :=
  let a := munchCount isColonSpace r
  if a = 0 then none
  else
    let r2 := r.drop a
    let b := munchCount isNumDotChar r2
    if b = 0 then none
    else
      match r2.drop b with
      | '%' :: _ => some (a + b + 1)
      | _ => some (a + b)

/-- Tail of `internal cost[:\s]+\$?[\d,\.]+`: greedy optional dollar sign, then
one or more money characters. -/
def tailIntCost (r : List Char) : Option Nat :=
  let a := munchCount isColonSpace r
  if a = 0 then none
  else
    match r.drop a with
    | '$' :: r3 =>
      let b := munchCount isMoneyChar r3
      if b = 0 then none else some (a + 1 + b)
    | r2 =>
      let b := munchCount isMoneyChar r2
      if b = 0 then none else some (a + b)

/-- Tail `.*`: everything up to (not including) the next newline or the end. -/
def tailLineRest (r : List Char) : Option Nat :=
  some (munchCount (fun c => c != '\n') r)

/-- The literal `⚠️ WARNING:` (U+26A0 U+FE0F, space, `WARNING:`). -/
def warnLit : List Char := [Char.ofNat 0x26A0, Char.ofNat 0xFE0F, ' '] ++ "WARNING:".data

/-- Tail of `.*cash.*`: matches the rest of the line exactly when the rest of
the line contains `cash` case-insensitively. -/
def tailWarnCash (r : List Char) : Option Nat :=
  let rest := r.takeWhile (fun c => c != '\n')
  if containsSeq "cash".data (lowerL rest) then some rest.length else none

/-- Tail `.*\n`: the rest of the line, requiring and consuming the newline. -/
def tailToNewline (r : List Char) : Option Nat :=
  let n := munchCount (fun c => c != '\n') r
  match r.drop n with
  | '\n' :: _ => some (n + 1)
  | _ => none

/-- Tail `\d{4}-\d{2}-\d{2}`: an exact-count date shape. -/
def tailDate (r : List Char) : Option Nat :=
  match r with
  | a :: b :: c :: d :: e :: f :: g :: h :: i :: j :: _ =>
    if isDigitChar a && isDigitChar b && isDigitChar c && isDigitChar d &&
        e == '-' && isDigitChar f && isDigitChar g && h == '-' &&
        isDigitChar i && isDigitChar j then some 10
    else none
  | _ => none

/-- The thirteen `sensitive_patterns` of `OrchestratorAgent.filter_internal_details`
(paperflow_agents.py, lines 187-201), in source order, each as a matcher with
Python `re` semantics under IGNORECASE. -/
def sensitiveMatchers : List (List Char → Option Nat) :=
  [matchLitThen "Transaction ID: ".data (tailClassPlus isDigitChar),
   matchLitThen "(ID: ".data (tailClassPlusChar isDigitChar ')'),
   matchLitThen "Updated Cash Balance: $".data (tailClassPlus isMoneyChar),
   matchLitThen "Current balance: $".data (tailClassPlus isMoneyChar),
   matchLitThen "Remaining after purchase: $".data (tailClassPlus isMoneyChar),
   matchLitThen "Safety buffer maintained: ".data (tailClassPlusChar isNumDotChar '%'),
   matchLitThen "profit margin".data tailProfit,
   matchLitThen "internal cost".data tailIntCost,
   matchLitThen "ERROR:".data tailLineRest,
   matchLitThen "FATAL:".data tailLineRest,
   matchLitThen warnLit tailWarnCash,
   matchLitThen "SUPPLIER ORDER PLACED".data tailToNewline,
   matchLitThen "Expected Delivery: ".data tailDate]

/-- Matcher for `\n\s*\n\s*\n+` (line 208): under Python backtracking this
matches at a newline exactly when the maximal whitespace run starting there
contains at least three newlines, and the match extends through the last
newline of that run (trailing non-newline whitespace stays). -/
def matchBlankRun (l : List Char) : Option Nat :=
  match l with
  | '\n' :: _ =>
    let run := l.takeWhile isPySpace
    if run.count '\n' ≥ 3 then
      some (run.length - (run.reverse.takeWhile (fun c => c != '\n')).length)
    else none
  | _ => none

/-- Embeds `OrchestratorAgent.filter_internal_details` (paperflow_agents.py,
lines 185-209): delete every occurrence of each sensitive pattern in turn
(one `re.sub` pass per pattern, in source order), collapse runs of three or
more newlines to a blank line, and strip the ends. -/
def filter_internal_details (resp : List Char) : List Char :=
  let r := sensitiveMatchers.foldl (fun acc m => subAllRepl m [] acc) resp
  pyStrip (subAllRepl matchBlankRun "\n\n".data r)

/-- The C3 counterexample input: a cash-balance figure without any of the
recognised prefixes (`Updated Cash Balance:`, `Current balance:`,
`Remaining after purchase:`). -/
def cbInput : List Char := "Cash Balance: $100.00".data

/-- Claim C3, counterexample: the sanitizer returns the text
`Cash Balance: $100.00` unchanged — no pattern matches it — so its output can
contain a cash-balance figure. -/
theorem C3_counterexample :
    filter_internal_details cbInput = cbInput ∧
    containsSeq "Cash Balance: $100.00".data (filter_internal_details cbInput) = true := by
  decide

/-- Helper: substitution leaves the empty text empty, for any fuel. -/
theorem subFuel_nil (m : List Char → Option Nat) (r : List Char) :
    ∀ fuel, subFuel m r fuel [] = [] := by
  intro fuel
  cases fuel <;> rfl

/-- Helper: a matcher that consumes an entire non-empty text in one match makes
the deleting substitution return the empty text. -/
theorem subAllRepl_total_match (m : List Char → Option Nat) (l : List Char)
    (hne : l ≠ []) (hm : m l = some l.length) :
    subAllRepl m [] l = [] := by
  match l, hne with
  | c :: cs, _ =>
    show subFuel m [] (c :: cs).length (c :: cs) = []
    have hm' : m (c :: cs) = some (cs.length + 1) := by simpa using hm
    simp only [List.length_cons, subFuel, hm']
    rw [List.drop_succ_cons, List.drop_length]
    simp [subFuel_nil]

/-- Helper: the pattern-deletion fold leaves the empty text empty. -/
theorem foldl_subAllRepl_nil :
    ∀ ms : List (List Char → Option Nat),
      List.foldl (fun acc m => subAllRepl m [] acc) [] ms = [] := by
  intro ms
  induction ms with
  | nil => rfl
  | cons m rest ih => exact ih

/-- Helper: stripping a pattern off itself (followed by anything) succeeds. -/
theorem stripPrefixCI_self_append (p r : List Char) :
    stripPrefixCI p (p ++ r) = some r := by
  induction p with
  | nil => rfl
  | cons c cs ih => simp [stripPrefixCI, ih]

/-- Helper: `takeWhile` keeps a list all of whose elements satisfy the test. -/
theorem takeWhile_all (p : Char → Bool) (l : List Char)
    (h : ∀ c ∈ l, p c = true) : l.takeWhile p = l := by
  induction l with
  | nil => rfl
  | cons c cs ih =>
    rw [List.takeWhile_cons, h c (List.mem_cons_self c cs)]
    exact congrArg (c :: ·) (ih fun a ha => h a (List.mem_cons_of_mem _ ha))

/-- Claim C3, amended: the sanitizer does remove the transaction-identifier
format it recognises — any text consisting of `Transaction ID: ` followed by
digits sanitises to the empty output — but it removes only its fixed pattern
list, each in a single pass, so a cash-balance figure written without one of
the recognised prefixes, such as `Cash Balance: $100.00`, is returned
unchanged and can remain in the output. -/
theorem C3_amended_thm (ds : List Char) (hne : ds ≠ [])
    (hdig : ∀ c ∈ ds, isDigitChar c = true) :
    filter_internal_details ("Transaction ID: ".data ++ ds) = [] ∧
    filter_internal_details cbInput = cbInput := by
  constructor
  · have hm : matchLitThen "Transaction ID: ".data (tailClassPlus isDigitChar)
        ("Transaction ID: ".data ++ ds) = some ("Transaction ID: ".data ++ ds).length := by
      simp only [matchLitThen, stripPrefixCI_self_append, tailClassPlus, munchCount,
        takeWhile_all isDigitChar ds hdig, List.length_append]
      rw [if_neg (by simpa [List.length_eq_zero] using hne)]
    have hsub : subAllRepl (matchLitThen "Transaction ID: ".data (tailClassPlus isDigitChar))
        [] ("Transaction ID: ".data ++ ds) = [] :=
      subAllRepl_total_match _ _ (by simp) hm
    unfold filter_internal_details sensitiveMatchers
    rw [List.foldl_cons, hsub, foldl_subAllRepl_nil]
    rfl
  · decide

/-- Claim C3, witness: the amended theorem at the digit string `12345`. -/
theorem C3_amended_witness :
    filter_internal_details ("Transaction ID: ".data ++ "12345".data) = [] ∧
    filter_internal_details cbInput = cbInput :=
  C3_amended_thm "12345".data (by decide) (by decide)

end PaperFlow
